import Mathlib

/-!
The module front/vue.config.js.

A shallow embedding of the module `front/vue.config.js`: the object literal
that the module passes to `defineConfig` and assigns to `module.exports`.

The values of the literal are booleans, one integer literal, one string and
nested object literals. An object literal is kept as the list of its
properties in the order in which the source writes them.
-/

namespace VueConfig

/-- The JavaScript values that occur in the module: `true`, the integer
literal `8080`, a string literal, and object literals (properties in source
order). -/
inductive Value where
  | bool (b : Bool)
  | num (n : Int)
  | str (s : String)
  | obj (props : List (String × Value))

/-- Property lookup in the property list of an object literal. A later
property of the same name overrides an earlier one, as in JavaScript. -/
def lookupProp (k : String) : List (String × Value) → Option Value
  | [] => none
  | (k', v) :: rest =>
    match lookupProp k rest with
    | some w => some w
    | none => if k' = k then some v else none

/-- Member access `v[k]`: `none` stands for `undefined` (a missing property, or
a value that is no object literal). -/
def Value.get (v : Value) (k : String) : Option Value :=
  match v with
  | .obj props => lookupProp k props
  | _ => none

/-- The names of the properties of a value, in source order (`Object.keys`);
a value that is no object literal has none. -/
def Value.fieldNames (v : Value) : List String :=
  match v with
  | .obj props => props.map Prod.fst
  | _ => []

/-- The function `defineConfig` of `@vue/cli-service`, a typing helper that
returns the configuration it is given. -/
def defineConfig (config : Value) : Value := config

/-- The value of `module.exports` (lines 2-14 of `vue.config.js`). The line
`// pathRewrite: {'^/api': ''}` is a comment and contributes no property. -/
def moduleExports : Value :=
  defineConfig (.obj [
    ("transpileDependencies", .bool true),
    ("devServer", .obj [
      ("port", .num 8080),
      ("proxy", .obj [
        ("/api", .obj [
          ("target", .str "http://localhost:8081"),
          ("changeOrigin", .bool true)
        ])
      ])
    ])
  ])

/-- The expression `module.exports.devServer`. -/
def devServer : Option Value := moduleExports.get "devServer"

/-- The expression `module.exports.devServer.port`. -/
def devServerPort : Option Value := devServer.bind (·.get "port")

/-- The expression `module.exports.devServer.proxy`. -/
def devServerProxy : Option Value := devServer.bind (·.get "proxy")

/-- The rule that `devServer.proxy` holds for the prefix `k`, if any. -/
def proxyRule (k : String) : Option Value := devServerProxy.bind (·.get k)

/-- The path a rule forwards for a request path. The dev server rewrites the
path only through a rule's `pathRewrite` option; how it rewrites is the dev
server's business and is the parameter `rewrite`. -/
def forwardedPath (rewrite : Value → String → String) (rule : Value) (path : String) : String :=
  match rule.get "pathRewrite" with
  | some rw => rewrite rw path
  | none => path

/-- The characters after the last `:` of a string (the whole string when it
has no `:`). -/
def afterLastColon (s : String) : List Char :=
  (s.toList.reverse.takeWhile (fun c => c ≠ ':')).reverse

/-- The number a non-empty list of decimal digits writes, `none` when the list
is empty or holds a character that is no digit. -/
def decimal? (cs : List Char) : Option Nat :=
  if cs ≠ [] ∧ cs.all Char.isDigit then
    some (cs.foldl (fun n c => 10 * n + (c.toNat - '0'.toNat)) 0)
  else none

/-- The port of a URL of the form `scheme://host:port`: the decimal number
after the last `:`. -/
def urlPort (url : String) : Option Nat := decimal? (afterLastColon url)

/-- The port of the target of the rule for the prefix `k`: the decimal number
after the last `:` of the rule's `target` string. -/
def proxyTargetPort (k : String) : Option Int :=
  match (proxyRule k).bind (·.get "target") with
  | some (.str url) => (urlPort url).map Int.ofNat
  | _ => none

/-- The configured port: `devServer.port` when it is a number. It is the port
the file asks for; the port the dev server ends up listening on is
`listeningPort`. -/
def configuredPort : Option Int :=
  match devServerPort with
  | some (.num n) => some n
  | _ => none

/-- What the start-up of the dev server reads besides the file: the `--port`
argument, the `PORT` environment variable, and which ports of the host are
already in use. -/
structure ServeEnv where
  cliPort : Option Nat
  envPort : Option Nat
  busy : Nat → Bool

/-- The port the dev server's search for a free port starts from. The `serve`
command of `@vue/cli-service` (outside this repository) takes
`args.port || process.env.PORT || projectDevServerOptions.port || defaults.port`
with `defaults.port` 8080; the file only supplies the third of these. -/
def basePort (env : ServeEnv) : Nat :=
  match env.cliPort <|> env.envPort <|> configuredPort.map Int.toNat with
  | some p => p
  | none => 8080

/-- The first port from `p` on that is not in use, trying `fuel` ports one after
the other (the search of `portfinder`, which the `serve` command calls). -/
def firstFreeFrom (busy : Nat → Bool) : Nat → Nat → Option Nat
  | 0, _ => none
  | fuel + 1, p => if busy p then firstFreeFrom busy fuel (p + 1) else some p

/-- The port the dev server listens on in an environment: the first free port
from the base port up to 65535, `none` when there is none. The dev server
listens on all interfaces of the host, so a target on `localhost` with this
port is the dev server itself. -/
def listeningPort (env : ServeEnv) : Option Int :=
  (firstFreeFrom env.busy (65536 - basePort env) (basePort env)).map Int.ofNat

/-- An environment without `--port` and `PORT` in which no port is in use. -/
def idleEnv : ServeEnv := ⟨none, none, fun _ => false⟩

/-- An environment without `--port` and `PORT` in which port 8080 is in use. -/
def portTakenEnv : ServeEnv := ⟨none, none, fun p => p == 8080⟩

/-- An environment in which the dev server is started with `--port 8081`. -/
def portOverrideEnv : ServeEnv := ⟨some 8081, none, fun _ => false⟩

/-! Properties of the exported configuration. -/

/-- The only rule of `devServer.proxy`, as the source writes it. -/
def apiRule : Value :=
  .obj [("target", .str "http://localhost:8081"), ("changeOrigin", .bool true)]

theorem devServerProxy_eq : devServerProxy = some (.obj [("/api", apiRule)]) := rfl

theorem proxyRule_eq (k : String) :
    proxyRule k = if "/api" = k then some apiRule else none := by
  simp only [proxyRule, devServerProxy_eq, Option.bind, Value.get, lookupProp]

/-- C1: the exported configuration (with `defineConfig` returning its argument)
has under `devServer.proxy` a rule for the key `/api` whose `target` is the
string `http://localhost:8081` and whose `changeOrigin` is `true`. -/
theorem proxy_api_target_changeOrigin :
    (∀ config, defineConfig config = config) ∧
    ∃ rule, proxyRule "/api" = some rule ∧
      rule.get "target" = some (.str "http://localhost:8081") ∧
      rule.get "changeOrigin" = some (.bool true) :=
  ⟨fun _ => rfl, apiRule, rfl, rfl, rfl⟩

/-- C2: the exported configuration's `devServer.port` is the integer 8080. -/
theorem devServer_port_8080 : devServerPort = some (.num 8080) := rfl

/-- C3: every rule of `devServer.proxy` has exactly the two fields `target` and
`changeOrigin`; it has no `pathRewrite` field, so whatever rewriting the dev
server does for a `pathRewrite` option, the rule forwards every request path
unchanged (the prefix `/api` is not stripped). -/
theorem proxy_rule_fields (k : String) (rule : Value) (h : proxyRule k = some rule) :
    rule.fieldNames = ["target", "changeOrigin"] ∧
    rule.get "pathRewrite" = none ∧
    ∀ (rewrite : Value → String → String) (path : String),
      forwardedPath rewrite rule path = path := by
  rw [proxyRule_eq] at h
  split at h
  · cases h
    exact ⟨rfl, rfl, fun _ _ => rfl⟩
  · cases h

theorem proxy_rule_fields_witness :
    proxyRule "/api" = some apiRule ∧
    apiRule.fieldNames = ["target", "changeOrigin"] ∧
    apiRule.get "pathRewrite" = none ∧
    forwardedPath (fun _ _ => "") apiRule "/api/users" = "/api/users" :=
  have h := proxy_rule_fields "/api" apiRule rfl
  ⟨rfl, h.1, h.2.1, h.2.2 (fun _ _ => "") "/api/users"⟩

/-- C4: the exported configuration has exactly the top-level fields
`transpileDependencies` and `devServer`, `devServer` has exactly the fields
`port` and `proxy`, and `transpileDependencies` is the boolean `true`. -/
theorem config_fields :
    moduleExports.fieldNames = ["transpileDependencies", "devServer"] ∧
    (∃ d, devServer = some d ∧ d.fieldNames = ["port", "proxy"]) ∧
    moduleExports.get "transpileDependencies" = some (.bool true) :=
  ⟨rfl, ⟨_, rfl, rfl⟩, rfl⟩

/-- C5: `devServer.proxy` has exactly one entry, keyed `/api`: for every string
`k` it has a rule for `k` if and only if `k` is `/api`. -/
theorem proxy_only_api :
    (∃ p, devServerProxy = some p ∧ p.fieldNames = ["/api"]) ∧
    ∀ k : String, (proxyRule k).isSome = true ↔ k = "/api" := by
  refine ⟨⟨_, rfl, rfl⟩, fun k => ?_⟩
  rw [proxyRule_eq]
  constructor
  · intro h
    split at h
    · next e => exact e.symm
    · cases h
  · intro e
    rw [if_pos e.symm]
    rfl

theorem configuredPort_eq : configuredPort = some 8080 := rfl

theorem proxyTargetPort_api : proxyTargetPort "/api" = some 8081 := by decide

/-- Without `--port` and `PORT`, and with port 8080 free, the dev server listens
on the configured port. -/
theorem listeningPort_eq_configuredPort (env : ServeEnv) (hcli : env.cliPort = none)
    (henv : env.envPort = none) (hfree : env.busy 8080 = false) :
    listeningPort env = configuredPort := by
  have hb : basePort env = 8080 := by
    simp [basePort, hcli, henv, configuredPort_eq]
  rw [listeningPort, hb, configuredPort_eq]
  show (firstFreeFrom env.busy (57455 + 1) 8080).map Int.ofNat = some 8080
  simp [firstFreeFrom, hfree]

/-- C6, as the claim states it, fails: the port of the `/api` target is the
port the dev server itself listens on when port 8080 is in use (the search
moves on to 8081), and also when the dev server is started with
`--port 8081`. -/
theorem proxy_target_port_can_be_listening_port :
    listeningPort portTakenEnv = some 8081 ∧
    proxyTargetPort "/api" = listeningPort portTakenEnv ∧
    proxyTargetPort "/api" = listeningPort portOverrideEnv := by
  refine ⟨by decide, by decide, by decide⟩

/-- C6, amended: the port of the `/api` rule's target URL (the decimal number
after the last `:` of `http://localhost:8081`, 8081) differs from the
configured `devServer.port` (8080), so in every environment in which the dev
server listens on the configured port the target port is not the port the dev
server listens on. -/
theorem proxy_target_port_ne_configured_port (env : ServeEnv)
    (h : listeningPort env = configuredPort) :
    proxyTargetPort "/api" = some 8081 ∧
    configuredPort = some 8080 ∧
    proxyTargetPort "/api" ≠ configuredPort ∧
    proxyTargetPort "/api" ≠ listeningPort env := by
  have hne : proxyTargetPort "/api" ≠ configuredPort := by
    rw [proxyTargetPort_api, configuredPort_eq]
    decide
  exact ⟨proxyTargetPort_api, configuredPort_eq, hne, by rw [h]; exact hne⟩

theorem proxy_target_port_ne_configured_port_witness :
    listeningPort idleEnv = configuredPort ∧
    proxyTargetPort "/api" = some 8081 ∧
    configuredPort = some 8080 ∧
    proxyTargetPort "/api" ≠ configuredPort ∧
    proxyTargetPort "/api" ≠ listeningPort idleEnv :=
  ⟨by decide, proxy_target_port_ne_configured_port idleEnv (by decide)⟩

end VueConfig
